import Mathlib

/-!
# Verification of the parking-management booking/session/settlement core

Shallow embedding of the backend core of the parking-management system
(`src/backend/app/api/endpoints/{bookings,sessions,balance,payments}.py`
together with the SQLAlchemy models under `src/backend/app/models/`).

Modelling conventions:
* Times are integer Unix seconds (`Int`).  `timedelta(minutes=5)` becomes
  `300` seconds, `.total_seconds() / 60` becomes division by `60`.
* Money (`Numeric(10,2)` columns and `Decimal` values) is modelled as
  `Int`: every `Numeric(10,2)` value is an exact integer multiple of 0.01,
  and the endpoints only ever add, subtract, negate, compare, or multiply
  money by an integer count of hours/days, so scaling to hundredths is an
  exact isomorphism of everything the code does with money.  Concrete
  witnesses below use whole-unit amounts.  The `Decimal.quantize('0.01')`
  steps of the source are the identity on every value they are applied to
  (two-decimal operands, integer multipliers) and are not modelled
  separately.
* Database rows are lists of structures; `scalar_one_or_none` becomes
  `List.find?` (the sources never produce the multiple-rows exception on the
  runs covered by the claims settled here).
* The endpoints address rows through attributes that the (stale) model files
  do not declare as columns (`Customer.balance`, `Booking.estimated_cost`,
  `ParkingSession.duration_minutes` / `total_cost`, `Payment.booking_id`,
  stored `ParkingZone.available_spots`).  The endpoint code and the test
  suite both use these attributes, so the embedding includes them as fields
  (`estimated_cost` is nullable: `create_booking` never sets it).
* A FastAPI request either commits at its single `db.commit()` or raises
  first, in which case the dependency-managed session discards all pending
  ORM mutations.  Each endpoint is therefore a function
  `DBState → Except ApiErr DBState`: `.ok` is the committed state, `.error`
  leaves the pre-call state in force (the commit/rollback plumbing lives in
  `app/db/database.py`, which only the endpoints see).
-/

/-- Errors raised by the endpoints (one constructor per `raise` site that the
claims can reach; the HTTP status code and message text are not modelled). -/
inductive ApiErr where
  | notFound
  | spotInactive
  | conflict
  | invalidTimeRange
  | startInPast
  | tooEarly
  | bookingExpired
  | bookingCancelled
  | bookingUsed
  | notActive
  | invalidExitTime
  | insufficientBalance
  | invalidStatus
  | cannotCancelCompleted
  | nonPositiveAmount
  | typeError
  deriving DecidableEq, Repr

/-- `app/models/tariff_plan.py` (`name`, `description`, timestamps omitted). -/
structure TariffPlan where
  tariff_id : Nat
  price_per_hour : Int
  price_per_day : Option Int
  deriving DecidableEq, Repr

/-- `app/models/parking_zone.py`; `available_spots` is the stored counter the
endpoints read and write. -/
structure ParkingZone where
  zone_id : Nat
  tariff_id : Option Nat
  total_spots : Nat
  available_spots : Nat
  deriving DecidableEq, Repr

/-- `app/models/parking_spot.py` (`spot_number`, `spot_type`, timestamps
omitted: no claim touches them). -/
structure ParkingSpot where
  spot_id : Nat
  zone_id : Nat
  is_occupied : Bool
  is_active : Bool
  deriving DecidableEq, Repr

/-- `app/models/customer.py` restricted to what the core logic reads. -/
structure Customer where
  customer_id : Nat
  balance : Int
  deriving DecidableEq, Repr

/-- `app/models/vehicle.py` restricted to the ownership link. -/
structure Vehicle where
  vehicle_id : Nat
  customer_id : Nat
  deriving DecidableEq, Repr

/-- `app/models/booking.py`; statuses are the strings pending / confirmed /
cancelled / completed.  `estimated_cost` is nullable and `create_booking`
leaves it unset. -/
structure Booking where
  booking_id : Nat
  customer_id : Nat
  vehicle_id : Nat
  spot_id : Nat
  start_time : Int
  end_time : Int
  estimated_cost : Option Int
  status : String
  deriving DecidableEq, Repr

/-- `app/models/parking_session.py`; statuses active / completed. -/
structure ParkingSession where
  session_id : Nat
  booking_id : Option Nat
  vehicle_id : Nat
  spot_id : Nat
  entry_time : Int
  exit_time : Option Int
  duration_minutes : Option Nat
  total_cost : Option Int
  status : String
  deriving DecidableEq, Repr

/-- `app/models/transaction.py` (the free-text `description` and timestamp
are omitted).  `type` ranges over topup / booking_charge / refund / penalty /
parking_charge. -/
structure Transaction where
  transaction_id : Nat
  customer_id : Nat
  booking_id : Option Nat
  session_id : Option Nat
  amount : Int
  type : String
  balance_before : Int
  balance_after : Int
  deriving DecidableEq, Repr

/-- `app/models/payment.py` after migration `ad867413a088` (nullable
`session_id`, added `booking_id`); the stringified `transaction_id` is kept
as the numeric id. -/
structure Payment where
  payment_id : Nat
  session_id : Option Nat
  booking_id : Option Nat
  customer_id : Nat
  amount : Int
  payment_method : String
  status : String
  transaction_id : Option Nat
  deriving DecidableEq, Repr

/-- The database as seen by one request.  `next_id` supplies fresh primary
keys for rows created by the request. -/
structure DBState where
  customers : List Customer
  vehicles : List Vehicle
  tariffs : List TariffPlan
  zones : List ParkingZone
  spots : List ParkingSpot
  bookings : List Booking
  sessions : List ParkingSession
  transactions : List Transaction
  payments : List Payment
  next_id : Nat
  deriving DecidableEq, Repr

/-! ## Row lookups (`select ... where`, `scalar_one_or_none`) -/

def findCustomer (s : DBState) (cid : Nat) : Option Customer :=
  s.customers.find? (fun c => c.customer_id == cid)

def findVehicle (s : DBState) (vid cid : Nat) : Option Vehicle :=
  s.vehicles.find? (fun v => v.vehicle_id == vid && v.customer_id == cid)

def findSpot (s : DBState) (spid : Nat) : Option ParkingSpot :=
  s.spots.find? (fun p => p.spot_id == spid)

def findZone (s : DBState) (zid : Nat) : Option ParkingZone :=
  s.zones.find? (fun z => z.zone_id == zid)

def findTariff (s : DBState) (tid : Nat) : Option TariffPlan :=
  s.tariffs.find? (fun t => t.tariff_id == tid)

def findBookingOfCustomer (s : DBState) (bid cid : Nat) : Option Booking :=
  s.bookings.find? (fun b => b.booking_id == bid && b.customer_id == cid)

def findBooking (s : DBState) (bid : Nat) : Option Booking :=
  s.bookings.find? (fun b => b.booking_id == bid)

/-- Vehicle ids owned by a customer (the `vehicle_ids` subquery used by the
session endpoints). -/
def customerVehicleIds (s : DBState) (cid : Nat) : List Nat :=
  (s.vehicles.filter (fun v => v.customer_id == cid)).map (·.vehicle_id)

/-- Session lookup scoped to the caller's vehicles. -/
def findSessionOfCustomer (s : DBState) (cid sid : Nat) : Option ParkingSession :=
  s.sessions.find?
    (fun t => t.session_id == sid && (customerVehicleIds s cid).contains t.vehicle_id)

/-- First payment row bound to a booking. -/
def findPaymentForBooking (s : DBState) (bid : Nat) : Option Payment :=
  s.payments.find? (fun p => p.booking_id == some bid)

/-! ## Cost calculators

Two independent calculators exist in the source: `calculate_session_cost`
in `sessions.py` (minutes-based, with a daily cap) and
`calculate_parking_cost` in `payments.py` (ceil-of-seconds-based, no cap).
-/

/-- Core of `sessions.py::calculate_session_cost` (lines 69-83), as a pure
function of `duration_minutes` and the tariff rates.  Python truthiness:
`if tariff.price_per_day and ...` is false both for `None` and for the value
`Decimal(0)`, hence the explicit `d ≠ 0` tests. -/
def sessionCostCore (dm : Nat) (hourly : Int) (daily : Option Int) : Int :=
  if dm < 1440 then
    let hours : Nat := (dm + 59) / 60
    let cost : Int := hourly * (hours : Int)
    match daily with
    | some d => if d ≠ 0 ∧ d < cost then d else cost
    | none => cost
  else
    let days : Nat := (dm + 1439) / 1440
    match daily with
    | some d => if d ≠ 0 then d * (days : Int) else hourly * 24 * (days : Int)
    | none => hourly * 24 * (days : Int)

/-- `sessions.py::calculate_session_cost`: resolves spot → zone → tariff from
the state and falls back to `0.00` when any link is missing.  All call sites
covered by the claims have `exit_time ≥ entry_time`, where the Python
`int(total_seconds / 60)` is the `Nat` floor used here. -/
def calculate_session_cost (s : DBState) (sess : ParkingSession) : Int :=
  match sess.exit_time with
  | none => 0
  | some ex =>
    let dm : Nat := (ex - sess.entry_time).toNat / 60
    match findSpot s sess.spot_id with
    | none => 0
    | some spot =>
      match findZone s spot.zone_id with
      | none => 0
      | some zone =>
        match zone.tariff_id with
        | none => 0
        | some tid =>
          match findTariff s tid with
          | none => 0
          | some tariff => sessionCostCore dm tariff.price_per_hour tariff.price_per_day

/-- `payments.py::calculate_parking_cost` (lines 25-45) as a function of the
session duration in seconds: `hours` is the `ROUND_UP` quantisation of
`seconds / 3600`, the daily branch applies only when `price_per_day` is
truthy and `hours ≥ 24`, and there is no daily cap below 24 h. -/
def calculate_parking_cost (durationSeconds : Nat) (hourly : Int) (daily : Option Int) : Int :=
  let hours : Nat := (durationSeconds + 3599) / 3600
  match daily with
  | some d =>
    if d ≠ 0 ∧ 24 ≤ hours then ((hours + 23) / 24 : Nat) * d
    else hourly * (hours : Int)
  | none => hourly * (hours : Int)

/-! ### Spec-side cost formulas (for claims C6/C7 only)

These two definitions follow the WORDS of the specification (§4.2 and claim
C6), to be compared with the code-derived `sessionCostCore`. -/

/-- Ceiling division as the spec phrases it (`hours = ceil(m/60)` etc.). -/
def specCeilDiv (a b : Nat) : Nat :=
  if b ∣ a then a / b else a / b + 1

/-- Claim C6's formula, verbatim: below 1440 minutes the hourly product,
capped at the daily rate whenever a daily rate EXISTS and the product
exceeds it; at or above 1440 minutes, days × daily when a daily rate is set,
else days × 24 × hourly. -/
def specSessionCost (dm : Nat) (hourly : Int) (daily : Option Int) : Int :=
  if dm < 1440 then
    let cost : Int := hourly * (specCeilDiv dm 60 : Int)
    match daily with
    | some d => if d < cost then d else cost
    | none => cost
  else
    match daily with
    | some d => d * (specCeilDiv dm 1440 : Int)
    | none => hourly * 24 * (specCeilDiv dm 1440 : Int)

/-- Claim C6 amended: the cap (and the multi-day daily branch) applies only
when the daily rate is set AND nonzero, matching Python truthiness. -/
def specSessionCostAmended (dm : Nat) (hourly : Int) (daily : Option Int) : Int :=
  if dm < 1440 then
    let cost : Int := hourly * (specCeilDiv dm 60 : Int)
    match daily with
    | some d => if d ≠ 0 ∧ d < cost then d else cost
    | none => cost
  else
    match daily with
    | some d =>
      if d ≠ 0 then d * (specCeilDiv dm 1440 : Int)
      else hourly * 24 * (specCeilDiv dm 1440 : Int)
    | none => hourly * 24 * (specCeilDiv dm 1440 : Int)

/-- The add-then-divide ceiling used in the code agrees with the spec's
ceiling. -/
theorem ceilDiv_eq_specCeilDiv_60 (a : Nat) : (a + 59) / 60 = specCeilDiv a 60 := by
  unfold specCeilDiv
  split <;> omega

theorem ceilDiv_eq_specCeilDiv_1440 (a : Nat) : (a + 1439) / 1440 = specCeilDiv a 1440 := by
  unfold specCeilDiv
  split <;> omega

/-! ## Row updates (ORM attribute writes, keyed by primary key) -/

def setSpotOccupied (s : DBState) (spid : Nat) (b : Bool) : DBState :=
  { s with spots := s.spots.map (fun p => if p.spot_id == spid then { p with is_occupied := b } else p) }

/-- `zone.available_spots = max(0, zone.available_spots - 1)` on session
start (`Nat` subtraction already saturates at 0). -/
def zoneTakeSpot (s : DBState) (zid : Nat) : DBState :=
  { s with zones := s.zones.map (fun z =>
      if z.zone_id == zid then { z with available_spots := max 0 (z.available_spots - 1) } else z) }

/-- `zone.available_spots = min(zone.total_spots, zone.available_spots + 1)`
on session end. -/
def zoneFreeSpot (s : DBState) (zid : Nat) : DBState :=
  { s with zones := s.zones.map (fun z =>
      if z.zone_id == zid then { z with available_spots := min z.total_spots (z.available_spots + 1) } else z) }

def setBookingStatus (s : DBState) (bid : Nat) (st : String) : DBState :=
  { s with bookings := s.bookings.map (fun b => if b.booking_id == bid then { b with status := st } else b) }

def setCustomerBalance (s : DBState) (cid : Nat) (bal : Int) : DBState :=
  { s with customers := s.customers.map (fun c => if c.customer_id == cid then { c with balance := bal } else c) }

/-! ## Endpoints -/

/-- `bookings.py::create_booking` (lines 96-193).  Checks follow the source
order: vehicle ownership, spot existence, spot active, overlap conflict
against pending/confirmed bookings, `start ≥ end`, `start < now`.  The row
is created with status `pending` only — no `estimated_cost`, no balance
charge, no Transaction, no Payment.  Returns the new booking's id. -/
def create_booking (s : DBState) (cid vid spid : Nat) (start_time end_time now : Int) :
    Except ApiErr (DBState × Nat) :=
  match findVehicle s vid cid with
  | none => .error .notFound
  | some _ =>
    match findSpot s spid with
    | none => .error .notFound
    | some spot =>
      if spot.is_active = false then .error .spotInactive
      else if s.bookings.any (fun b => b.spot_id == spid &&
          (b.status == "pending" || b.status == "confirmed") &&
          decide (b.start_time < end_time) && decide (b.end_time > start_time)) then
        .error .conflict
      else if end_time ≤ start_time then .error .invalidTimeRange
      else if start_time < now then .error .startInPast
      else
        let b : Booking :=
          { booking_id := s.next_id, customer_id := cid, vehicle_id := vid, spot_id := spid,
            start_time := start_time, end_time := end_time, estimated_cost := none,
            status := "pending" }
        .ok ({ s with bookings := s.bookings ++ [b], next_id := s.next_id + 1 }, s.next_id)

/-- `bookings.py::cancel_booking` (lines 256-286): only a `completed` status
is rejected; otherwise the status is set to `cancelled`.  No refund, no
Transaction. -/
def cancel_booking (s : DBState) (bid cid : Nat) : Except ApiErr DBState :=
  match findBookingOfCustomer s bid cid with
  | none => .error .notFound
  | some b =>
    if b.status = "completed" then .error .cannotCancelCompleted
    else .ok (setBookingStatus s bid "cancelled")

/-- `bookings.py::update_booking_status` (lines 219-253): any of the four
statuses is accepted unconditionally; anything else is rejected. -/
def update_booking_status (s : DBState) (bid cid : Nat) (st : String) : Except ApiErr DBState :=
  match findBookingOfCustomer s bid cid with
  | none => .error .notFound
  | some _ =>
    if (["pending", "confirmed", "cancelled", "completed"].contains st) = false then
      .error .invalidStatus
    else .ok (setBookingStatus s bid st)

/-- One balance mutation together with its ledger row (the pattern
`customer.balance = after; db.add(Transaction(...))` of the source). -/
def ledgerWrite (s : DBState) (cid : Nat) (newBalance : Int) (t : Transaction) : DBState :=
  { setCustomerBalance s cid newBalance with
    transactions := s.transactions ++ [t]
    next_id := s.next_id + 1 }

/-- `balance.py::topup_balance` (lines 16-51). -/
def topup_balance (s : DBState) (cid : Nat) (amount : Int) : Except ApiErr DBState :=
  match findCustomer s cid with
  | none => .error .notFound
  | some c =>
    if amount ≤ 0 then .error .nonPositiveAmount
    else
      .ok (ledgerWrite s cid (c.balance + amount)
        { transaction_id := s.next_id, customer_id := cid, booking_id := none,
          session_id := none, amount := amount, type := "topup",
          balance_before := c.balance, balance_after := c.balance + amount })

/-- `sessions.py::start_parking_session` (lines 115-244).  The booking
time-window buffer is 5 minutes = 300 seconds.  A `pending` booking is
advanced to `confirmed`; the spot is marked occupied and the zone counter
decremented. -/
def start_parking_session (s : DBState) (cid vid spid : Nat) (bid? : Option Nat)
    (entry? : Option Int) (now : Int) : Except ApiErr DBState :=
  match findVehicle s vid cid with
  | none => .error .notFound
  | some _ =>
    match findSpot s spid with
    | none => .error .notFound
    | some spot =>
      if spot.is_occupied then .error .conflict
      else
        let afterBooking : Except ApiErr DBState :=
          match bid? with
          | none => .ok s
          | some bid =>
            match s.bookings.find? (fun b => b.booking_id == bid && b.customer_id == cid &&
                b.vehicle_id == vid && b.spot_id == spid) with
            | none => .error .notFound
            | some b =>
              if now < b.start_time - 300 then .error .tooEarly
              else if b.end_time < now then .error .bookingExpired
              else if b.status = "cancelled" then .error .bookingCancelled
              else if b.status = "completed" then .error .bookingUsed
              else if b.status = "pending" then .ok (setBookingStatus s bid "confirmed")
              else .ok s
        match afterBooking with
        | .error e => .error e
        | .ok s1 =>
          let sess : ParkingSession :=
            { session_id := s1.next_id, booking_id := bid?, vehicle_id := vid, spot_id := spid,
              entry_time := entry?.getD now, exit_time := none, duration_minutes := none,
              total_cost := none, status := "active" }
          let s2 := { setSpotOccupied s1 spid true with
                      sessions := s1.sessions ++ [sess],
                      spots := (setSpotOccupied s1 spid true).spots,
                      next_id := s1.next_id + 1 }
          .ok (zoneTakeSpot s2 spot.zone_id)

/-- The `total_cost` computed at session end: `calculate_session_cost` on
the session with its exit time filled in (sessions.py lines 408-416). -/
def endSessionCost (s : DBState) (sess : ParkingSession) (exit_time : Int) : Int :=
  calculate_session_cost s { sess with exit_time := some exit_time }

/-- `sessions.py::end_parking_session` (lines 361-565).  Mutations that the
source performs before a `raise` are discarded by the rollback; this
function returns `.error` in exactly the cases in which the source raises
after the guards (insufficient balance for a penalty or a no-booking charge,
and the `TypeError` of `None - Decimal` when the booking row has no
`estimated_cost`). -/
def completeSessionRows (s : DBState) (sid : Nat) (exit_time : Int) (dm : Nat) (cost : Int) :
    DBState :=
  { s with sessions := s.sessions.map (fun t =>
      if t.session_id == sid then
        { t with
          exit_time := some exit_time,
          status := "completed",
          duration_minutes := some dm,
          total_cost := some cost }
      else t) }

/-- `if spot: spot.is_occupied = False; zone.available_spots += 1` of the
end-session endpoint. -/
def freeSpotRows (s1 : DBState) (spid : Nat) : DBState :=
  match findSpot s1 spid with
  | none => s1
  | some spot => zoneFreeSpot (setSpotOccupied s1 spid false) spot.zone_id

/-- `payment = select Payment where booking_id; payment.session_id = ...;
payment.amount = actual_cost` of the end-session endpoint. -/
def linkPaymentToSession (s : DBState) (bid sid : Nat) (cost : Int) : DBState :=
  match findPaymentForBooking s bid with
  | none => s
  | some p =>
    { s with payments := s.payments.map (fun q =>
        if q.payment_id == p.payment_id then
          { q with session_id := some sid, amount := cost }
        else q) }

def end_parking_session (s : DBState) (cid sid : Nat) (exit_time : Int) :
    Except ApiErr DBState :=
  match findCustomer s cid with
  | none => .error .notFound
  | some cust =>
    match findSessionOfCustomer s cid sid with
    | none => .error .notFound
    | some sess =>
      if sess.status ≠ "active" then .error .notActive
      else if exit_time < sess.entry_time then .error .invalidExitTime
      else
        let dm : Nat := (exit_time - sess.entry_time).toNat / 60
        let cost : Int := endSessionCost s sess exit_time
        let s2 : DBState := freeSpotRows (completeSessionRows s sid exit_time dm cost) sess.spot_id
        match sess.booking_id with
        | some bid =>
          match findBooking s2 bid with
          | none => .ok s2
          | some b =>
            match b.estimated_cost with
            | none => .error .typeError
            | some est =>
              let diff : Int := est - cost
              if 0 < diff then
                .ok (linkPaymentToSession
                  (setBookingStatus
                    (ledgerWrite s2 cid (cust.balance + diff)
                      { transaction_id := s2.next_id, customer_id := cid, booking_id := some bid,
                        session_id := some sid, amount := diff, type := "refund",
                        balance_before := cust.balance, balance_after := cust.balance + diff })
                    bid "completed")
                  bid sid cost)
              else if diff < 0 then
                if cust.balance < -diff then .error .insufficientBalance
                else
                  .ok (linkPaymentToSession
                    (setBookingStatus
                      (ledgerWrite s2 cid (cust.balance - -diff)
                        { transaction_id := s2.next_id, customer_id := cid, booking_id := some bid,
                          session_id := some sid, amount := -diff, type := "penalty",
                          balance_before := cust.balance, balance_after := cust.balance - -diff })
                      bid "completed")
                    bid sid cost)
              else .ok (linkPaymentToSession (setBookingStatus s2 bid "completed") bid sid cost)
        | none =>
          if cust.balance < cost then .error .insufficientBalance
          else
            .ok { ledgerWrite s2 cid (cust.balance - cost)
                    { transaction_id := s2.next_id, customer_id := cid, booking_id := none,
                      session_id := some sid, amount := cost, type := "parking_charge",
                      balance_before := cust.balance, balance_after := cust.balance - cost } with
                  payments := s2.payments ++
                    [{ payment_id := s2.next_id + 1, session_id := some sid, booking_id := none,
                       customer_id := cid, amount := cost, payment_method := "balance",
                       status := "completed", transaction_id := some s2.next_id }]
                  next_id := s2.next_id + 2 }

/-- Observable state after an end-session request: the committed state on
success, the untouched pre-call state after a raise (the dependency-managed
DB session rolls uncommitted mutations back). -/
def end_parking_session_observed (s : DBState) (cid sid : Nat) (exit_time : Int) : DBState :=
  match end_parking_session s cid sid exit_time with
  | .ok s' => s'
  | .error _ => s

/-- Customer balance projection. -/
def balanceOf (s : DBState) (cid : Nat) : Option Int :=
  (findCustomer s cid).map (·.balance)

/-! ## Claims C6 and C7: the cost calculators -/

/-- Claim C6, counterexample.  The claim's formula caps at the daily rate
whenever a daily rate exists; the code tests Python truthiness, so a daily
rate that is set but equal to 0 is ignored.  At 60 minutes, hourly = 100,
daily = 0 the code returns 100 while the claimed formula returns 0. -/
theorem c6_counterexample :
    sessionCostCore 60 100 (some 0) = 100 ∧
    specSessionCost 60 100 (some 0) = 0 ∧
    sessionCostCore 60 100 (some 0) ≠ specSessionCost 60 100 (some 0) := by
  decide

/-- Claim C6 as amended: the session-end cost computation follows the claimed
hours/days formula with the daily cap and the multi-day daily branch applying
exactly when the daily rate is set AND nonzero; and a 25-hour (1500-minute)
session at hourly = 100, daily = 800 costs exactly 1600. -/
theorem c6_theorem :
    (∀ (dm : Nat) (hourly : Int) (daily : Option Int),
        sessionCostCore dm hourly daily = specSessionCostAmended dm hourly daily)
    ∧ sessionCostCore 1500 100 (some 800) = 1600 := by
  constructor
  · intro dm hourly daily
    simp only [sessionCostCore, specSessionCostAmended,
      ← ceilDiv_eq_specCeilDiv_60, ← ceilDiv_eq_specCeilDiv_1440]
  · decide

/-- Claim C7: the session-end calculator (`sessions.py`, minutes-based with
the daily cap) and the payment-endpoint calculator (`payments.py`,
ceil-of-seconds with no sub-24h cap) disagree on some duration and tariff:
at 36000 seconds (10 h), hourly = 100, daily = 800 they return 800 and 1000
respectively. -/
theorem c7_theorem :
    ∃ (durationSeconds : Nat) (hourly : Int) (daily : Option Int),
      sessionCostCore (durationSeconds / 60) hourly daily ≠
        calculate_parking_cost durationSeconds hourly daily :=
  ⟨36000, 100, some 800, by decide⟩

/-! ## Claim C1: createBooking performs no charge at all -/

/-- Fixture: one customer with balance 1000, owning vehicle 1; one active,
unoccupied spot in a zone with tariff hourly = 100, daily = 800. -/
def c1state : DBState :=
  { customers := [{ customer_id := 1, balance := 1000 }]
    vehicles := [{ vehicle_id := 1, customer_id := 1 }]
    tariffs := [{ tariff_id := 1, price_per_hour := 100, price_per_day := some 800 }]
    zones := [{ zone_id := 1, tariff_id := some 1, total_spots := 10, available_spots := 10 }]
    spots := [{ spot_id := 1, zone_id := 1, is_occupied := false, is_active := true }]
    bookings := []
    sessions := []
    transactions := []
    payments := []
    next_id := 50 }

/-- Same fixture with balance 10, far below the 200 that a 2-hour booking at
hourly rate 100 is worth. -/
def c1stateLow : DBState :=
  { c1state with customers := [{ customer_id := 1, balance := 10 }] }

/-- Expected output state for `c1state`: only a pending booking row is
added, with no `estimated_cost`. -/
def c1result : DBState :=
  { c1state with
    bookings := [{ booking_id := 50, customer_id := 1, vehicle_id := 1, spot_id := 1,
                   start_time := 3600, end_time := 10800, estimated_cost := none,
                   status := "pending" }]
    next_id := 51 }

def c1resultLow : DBState :=
  { c1stateLow with
    bookings := [{ booking_id := 50, customer_id := 1, vehicle_id := 1, spot_id := 1,
                   start_time := 3600, end_time := 10800, estimated_cost := none,
                   status := "pending" }]
    next_id := 51 }

/-- Claim C1 is contradicted by the code (and the code by its own tests
`test_create_booking_success` / `test_create_booking_insufficient_balance`):
a successful `create_booking` for a 2-hour window leaves the balance at
1000, writes no Transaction and no Payment, and stores no estimated cost;
and with balance 10 (far below the 200 the claim says must be charged) the
call still succeeds instead of failing with InsufficientBalance. -/
theorem c1_code_bug :
    create_booking c1state 1 1 1 3600 10800 0 = .ok (c1result, 50) ∧
    balanceOf c1result 1 = some 1000 ∧
    c1result.transactions = [] ∧
    c1result.payments = [] ∧
    c1result.bookings.map (fun b => (b.status, b.estimated_cost)) = [("pending", none)] ∧
    create_booking c1stateLow 1 1 1 3600 10800 0 = .ok (c1resultLow, 50) :=
  ⟨rfl, rfl, rfl, rfl, rfl, rfl⟩

/-! ## Claim C9: cancelBooking refunds nothing and accepts cancelled bookings -/

/-- Fixture: customer 1 with balance 400; booking 5 already `cancelled` and
booking 6 `pending`, both with estimated_cost 100. -/
def c9state : DBState :=
  { customers := [{ customer_id := 1, balance := 400 }]
    vehicles := [{ vehicle_id := 1, customer_id := 1 }]
    tariffs := []
    zones := []
    spots := []
    bookings := [{ booking_id := 5, customer_id := 1, vehicle_id := 1, spot_id := 1,
                   start_time := 3600, end_time := 10800, estimated_cost := some 100,
                   status := "cancelled" },
                 { booking_id := 6, customer_id := 1, vehicle_id := 1, spot_id := 1,
                   start_time := 90000, end_time := 97200, estimated_cost := some 100,
                   status := "pending" }]
    sessions := []
    transactions := []
    payments := []
    next_id := 50 }

/-- Expected output of cancelling the pending booking 6: its status flips to
cancelled and nothing else changes. -/
def c9resultB : DBState :=
  { c9state with
    bookings := [{ booking_id := 5, customer_id := 1, vehicle_id := 1, spot_id := 1,
                   start_time := 3600, end_time := 10800, estimated_cost := some 100,
                   status := "cancelled" },
                 { booking_id := 6, customer_id := 1, vehicle_id := 1, spot_id := 1,
                   start_time := 90000, end_time := 97200, estimated_cost := some 100,
                   status := "cancelled" }] }

/-- Claim C9 is contradicted by the code (and the code by its own tests
`test_cancel_booking` / `test_cancel_already_cancelled_booking`): cancelling
the already-cancelled booking 5 succeeds instead of failing AlreadyTerminal,
and cancelling the pending booking 6 with estimated_cost 100 refunds
nothing — the balance stays 400 and no refund Transaction is written. -/
theorem c9_code_bug :
    cancel_booking c9state 5 1 = .ok c9state ∧
    cancel_booking c9state 6 1 = .ok c9resultB ∧
    balanceOf c9resultB 1 = some 400 ∧
    c9resultB.transactions = [] :=
  ⟨rfl, rfl, rfl, rfl⟩

/-! ## Claim C10: the status-update endpoint accepts any of the four statuses -/

/-- Claim C10: for a booking owned by the caller, PATCHing any status among
pending / confirmed / cancelled / completed succeeds whatever the current
status is, only rewrites that booking's status, and touches no customer
balance, ledger row, or payment; any other status string is rejected. -/
theorem c10_theorem :
    ∀ (s : DBState) (bid cid : Nat) (st : String) (b : Booking),
      findBookingOfCustomer s bid cid = some b →
      ((st = "pending" ∨ st = "confirmed" ∨ st = "cancelled" ∨ st = "completed") →
        update_booking_status s bid cid st = .ok (setBookingStatus s bid st) ∧
        (setBookingStatus s bid st).customers = s.customers ∧
        (setBookingStatus s bid st).transactions = s.transactions ∧
        (setBookingStatus s bid st).payments = s.payments ∧
        ∀ b' ∈ (setBookingStatus s bid st).bookings, b'.booking_id = bid → b'.status = st) ∧
      (st ∉ (["pending", "confirmed", "cancelled", "completed"] : List String) →
        update_booking_status s bid cid st = .error .invalidStatus) := by
  intro s bid cid st b hfind
  constructor
  · intro hst
    have hcontains : (["pending", "confirmed", "cancelled", "completed"].contains st) = true := by
      rcases hst with h | h | h | h <;> subst h <;> rfl
    refine ⟨?_, rfl, rfl, rfl, ?_⟩
    · unfold update_booking_status
      rw [hfind, hcontains]
      rfl
    · intro b' hb' hid
      unfold setBookingStatus at hb'
      simp only [List.mem_map] at hb'
      obtain ⟨b0, _, heq⟩ := hb'
      by_cases hmatch : (b0.booking_id == bid) = true
      · rw [if_pos hmatch] at heq
        rw [← heq]
      · rw [if_neg hmatch] at heq
        subst heq
        exact absurd (by simpa using hid) (by simpa using hmatch)
  · intro hst
    have hcontains : (["pending", "confirmed", "cancelled", "completed"].contains st) = false := by
      cases hc : (["pending", "confirmed", "cancelled", "completed"].contains st) with
      | false => rfl
      | true => exact absurd (List.mem_of_elem_eq_true hc) hst
    unfold update_booking_status
    rw [hfind, hcontains]
    rfl

/-- Fixture for the C10 witness: a single booking, id 7, already cancelled. -/
def c10booking : Booking :=
  { booking_id := 7, customer_id := 1, vehicle_id := 1, spot_id := 1,
    start_time := 3600, end_time := 10800, estimated_cost := some 100,
    status := "cancelled" }

def c10state : DBState :=
  { customers := [{ customer_id := 1, balance := 400 }]
    vehicles := [{ vehicle_id := 1, customer_id := 1 }]
    tariffs := []
    zones := []
    spots := []
    bookings := [c10booking]
    sessions := []
    transactions := []
    payments := []
    next_id := 50 }

/-- Witness for C10: moving the cancelled booking 7 back to `pending`
succeeds and rejects a status outside the four. -/
theorem c10_witness :
    update_booking_status c10state 7 1 "pending" = .ok (setBookingStatus c10state 7 "pending") ∧
    update_booking_status c10state 7 1 "archived" = .error .invalidStatus :=
  ⟨((c10_theorem c10state 7 1 "pending" c10booking rfl).1 (Or.inl rfl)).1,
   (c10_theorem c10state 7 1 "archived" c10booking rfl).2 (by decide)⟩

/-! ## Claim C5: create-then-cancel round trip -/

theorem create_booking_ok_shape {s : DBState} {cid vid spid : Nat} {st en now : Int}
    {s1 : DBState} {bid : Nat}
    (h : create_booking s cid vid spid st en now = .ok (s1, bid)) :
    s1.customers = s.customers ∧ s1.transactions = s.transactions ∧ s1.payments = s.payments := by
  unfold create_booking at h
  split at h
  · simp at h
  · split at h
    · simp at h
    · split at h
      · simp at h
      · split at h
        · simp at h
        · split at h
          · simp at h
          · split at h
            · simp at h
            · simp only [Except.ok.injEq, Prod.mk.injEq] at h
              rw [← h.1]
              exact ⟨rfl, rfl, rfl⟩

theorem cancel_booking_ok_shape {s : DBState} {bid cid : Nat} {s2 : DBState}
    (h : cancel_booking s bid cid = .ok s2) :
    s2.customers = s.customers ∧ s2.transactions = s.transactions ∧ s2.payments = s.payments := by
  unfold cancel_booking at h
  split at h
  · simp at h
  · split at h
    · simp at h
    · simp only [Except.ok.injEq] at h
      rw [← h]
      exact ⟨rfl, rfl, rfl⟩

/-- Claim C5: a successful `create_booking` immediately followed by
`cancel_booking` of the new booking leaves the caller's balance exactly at
its pre-booking value, and the charge taken by create equals the refund
given by cancel — degenerately, since neither endpoint touches the
customers table or writes a ledger row (see C1/C9). -/
theorem c5_theorem :
    ∀ (s s1 s2 : DBState) (cid vid spid : Nat) (st en now : Int) (bid : Nat),
      create_booking s cid vid spid st en now = .ok (s1, bid) →
      cancel_booking s1 bid cid = .ok s2 →
      balanceOf s2 cid = balanceOf s cid ∧
      s1.customers = s.customers ∧ s2.customers = s1.customers ∧
      s1.transactions = s.transactions ∧ s2.transactions = s1.transactions := by
  intro s s1 s2 cid vid spid st en now bid hcreate hcancel
  obtain ⟨hc1, ht1, -⟩ := create_booking_ok_shape hcreate
  obtain ⟨hc2, ht2, -⟩ := cancel_booking_ok_shape hcancel
  refine ⟨?_, hc1, hc2, ht1, ht2⟩
  unfold balanceOf findCustomer
  rw [hc2, hc1]

/-- Fixture for the C5 witness: same shape as the C1 fixture. -/
def c5state : DBState :=
  { customers := [{ customer_id := 1, balance := 1000 }]
    vehicles := [{ vehicle_id := 1, customer_id := 1 }]
    tariffs := [{ tariff_id := 1, price_per_hour := 100, price_per_day := some 800 }]
    zones := [{ zone_id := 1, tariff_id := some 1, total_spots := 10, available_spots := 10 }]
    spots := [{ spot_id := 1, zone_id := 1, is_occupied := false, is_active := true }]
    bookings := []
    sessions := []
    transactions := []
    payments := []
    next_id := 60 }

/-- State after `create_booking c5state 1 1 1 3600 10800 0`. -/
def c5s1 : DBState :=
  { c5state with
    bookings := [{ booking_id := 60, customer_id := 1, vehicle_id := 1, spot_id := 1,
                   start_time := 3600, end_time := 10800, estimated_cost := none,
                   status := "pending" }]
    next_id := 61 }

/-- State after `cancel_booking c5s1 60 1`. -/
def c5s2 : DBState :=
  { c5state with
    bookings := [{ booking_id := 60, customer_id := 1, vehicle_id := 1, spot_id := 1,
                   start_time := 3600, end_time := 10800, estimated_cost := none,
                   status := "cancelled" }]
    next_id := 61 }

/-- Witness for C5 at a concrete round trip. -/
theorem c5_witness : balanceOf c5s2 1 = balanceOf c5state 1 :=
  (c5_theorem c5state c5s1 c5s2 1 1 1 3600 10800 0 60 rfl rfl).1

/-! ## Claims C2/C3: settlement against a booking at session end -/

/-- After `setBookingStatus`, every row with the target id carries the new
status. -/
theorem setBookingStatus_mem {s : DBState} {bid : Nat} {st : String} :
    ∀ b' ∈ (setBookingStatus s bid st).bookings, b'.booking_id = bid → b'.status = st := by
  intro b' hb' hid
  unfold setBookingStatus at hb'
  simp only [List.mem_map] at hb'
  obtain ⟨b0, _, heq⟩ := hb'
  by_cases hmatch : (b0.booking_id == bid) = true
  · rw [if_pos hmatch] at heq
    rw [← heq]
  · rw [if_neg hmatch] at heq
    subst heq
    exact absurd (by simpa using hid) (by simpa using hmatch)

/-- `List.find?` commutes with the balance-overwriting map on the customers
table. -/
theorem find?_balance_map (l : List Customer) (cid : Nat) (v : Int) (c : Customer)
    (h : l.find? (fun x => x.customer_id == cid) = some c) :
    (l.map (fun x => if x.customer_id == cid then { x with balance := v } else x)).find?
      (fun x => x.customer_id == cid) = some { c with balance := v } := by
  induction l with
  | nil => simp at h
  | cons hd tl ih =>
    by_cases hpa : (hd.customer_id == cid) = true
    · rw [@List.find?_cons_of_pos _ (fun x : Customer => x.customer_id == cid) hd tl hpa] at h
      simp only [Option.some.injEq] at h
      subst h
      simp only [List.map_cons, if_pos hpa]
      exact @List.find?_cons_of_pos _ (fun x : Customer => x.customer_id == cid) _ _ hpa
    · rw [@List.find?_cons_of_neg _ (fun x : Customer => x.customer_id == cid) hd tl hpa] at h
      simp only [List.map_cons, if_neg hpa]
      rw [@List.find?_cons_of_neg _ (fun x : Customer => x.customer_id == cid) hd _ hpa]
      exact ih h

/-! Projection lemmas for the end-session sub-operations. -/

theorem freeSpotRows_fields (s : DBState) (spid : Nat) :
    (freeSpotRows s spid).customers = s.customers ∧
    (freeSpotRows s spid).bookings = s.bookings ∧
    (freeSpotRows s spid).transactions = s.transactions ∧
    (freeSpotRows s spid).payments = s.payments ∧
    (freeSpotRows s spid).next_id = s.next_id ∧
    (freeSpotRows s spid).sessions = s.sessions ∧
    (freeSpotRows s spid).vehicles = s.vehicles := by
  unfold freeSpotRows
  split <;> exact ⟨rfl, rfl, rfl, rfl, rfl, rfl, rfl⟩

theorem linkPaymentToSession_fields (s : DBState) (bid sid : Nat) (cost : Int) :
    (linkPaymentToSession s bid sid cost).customers = s.customers ∧
    (linkPaymentToSession s bid sid cost).bookings = s.bookings ∧
    (linkPaymentToSession s bid sid cost).transactions = s.transactions ∧
    (linkPaymentToSession s bid sid cost).sessions = s.sessions ∧
    (linkPaymentToSession s bid sid cost).next_id = s.next_id ∧
    (linkPaymentToSession s bid sid cost).spots = s.spots := by
  unfold linkPaymentToSession
  split <;> exact ⟨rfl, rfl, rfl, rfl, rfl, rfl⟩

/-- Claim C3: ending an active booked session whose estimated cost exceeds
the computed total cost succeeds, credits the balance by exactly the
difference, appends exactly one `refund` Transaction whose amount and
before/after snapshots match the mutation, and completes the booking. -/
theorem c3_theorem :
    ∀ (s : DBState) (cid sid : Nat) (exit_time : Int) (cust : Customer)
      (sess : ParkingSession) (bid : Nat) (b : Booking) (est : Int),
      findCustomer s cid = some cust →
      findSessionOfCustomer s cid sid = some sess →
      sess.status = "active" →
      sess.entry_time ≤ exit_time →
      sess.booking_id = some bid →
      findBooking s bid = some b →
      b.estimated_cost = some est →
      endSessionCost s sess exit_time < est →
      ∃ s', end_parking_session s cid sid exit_time = .ok s' ∧
        balanceOf s' cid = some (cust.balance + (est - endSessionCost s sess exit_time)) ∧
        s'.transactions = s.transactions ++
          [{ transaction_id := s.next_id, customer_id := cid, booking_id := some bid,
             session_id := some sid,
             amount := est - endSessionCost s sess exit_time, type := "refund",
             balance_before := cust.balance,
             balance_after := cust.balance + (est - endSessionCost s sess exit_time) }] ∧
        (∀ b' ∈ s'.bookings, b'.booking_id = bid → b'.status = "completed") := by
  intro s cid sid exit_time cust sess bid b est hc hs hstat hexit hbid hfb hest hlt
  have hstat' : ¬(sess.status ≠ "active") := by simp [hstat]
  have hexit' : ¬(exit_time < sess.entry_time) := not_lt.mpr hexit
  have hdiff : (0 : Int) < est - endSessionCost s sess exit_time := sub_pos.mpr hlt
  simp only [end_parking_session, hc, hs, if_neg hstat', if_neg hexit', hbid]
  have hfb2 : findBooking
      (freeSpotRows
        (completeSessionRows s sid exit_time ((exit_time - sess.entry_time).toNat / 60)
          (endSessionCost s sess exit_time))
        sess.spot_id) bid = some b := by
    unfold findBooking
    rw [(freeSpotRows_fields _ _).2.1]
    exact hfb
  simp only [hfb2, hest, if_pos hdiff]
  refine ⟨_, rfl, ?_, ?_, ?_⟩
  · -- balance credited by exactly the difference
    have hcust2 : (freeSpotRows
        (completeSessionRows s sid exit_time ((exit_time - sess.entry_time).toNat / 60)
          (endSessionCost s sess exit_time))
        sess.spot_id).customers.find? (fun x => x.customer_id == cid) = some cust := by
      rw [(freeSpotRows_fields _ _).1]
      exact hc
    unfold balanceOf findCustomer
    rw [(linkPaymentToSession_fields _ _ _ _).1]
    simp only [setBookingStatus, ledgerWrite, setCustomerBalance]
    rw [find?_balance_map _ _ _ _ hcust2]
    rfl
  · -- exactly one refund transaction appended, snapshots matching
    rw [(linkPaymentToSession_fields _ _ _ _).2.2.1]
    simp only [setBookingStatus, ledgerWrite, setCustomerBalance]
    rw [(freeSpotRows_fields _ _).2.2.1, (freeSpotRows_fields _ _).2.2.2.2.1]
    rfl
  · -- the booking row is completed
    intro b' hb' hidb
    rw [(linkPaymentToSession_fields _ _ _ _).2.1] at hb'
    exact setBookingStatus_mem b' hb' hidb

/-- Fixtures for the C3 witness (Scenario C): booking 5 pre-charged at
estimated_cost 200 for a 2-hour reservation; the actual session lasts 60
minutes at hourly rate 100, so 100 must come back. -/
def c3cust : Customer := { customer_id := 1, balance := 500 }

def c3sess : ParkingSession :=
  { session_id := 9, booking_id := some 5, vehicle_id := 1, spot_id := 1,
    entry_time := 0, exit_time := none, duration_minutes := none, total_cost := none,
    status := "active" }

def c3booking : Booking :=
  { booking_id := 5, customer_id := 1, vehicle_id := 1, spot_id := 1,
    start_time := 0, end_time := 7200, estimated_cost := some 200, status := "confirmed" }

def c3state : DBState :=
  { customers := [c3cust]
    vehicles := [{ vehicle_id := 1, customer_id := 1 }]
    tariffs := [{ tariff_id := 1, price_per_hour := 100, price_per_day := some 800 }]
    zones := [{ zone_id := 1, tariff_id := some 1, total_spots := 10, available_spots := 9 }]
    spots := [{ spot_id := 1, zone_id := 1, is_occupied := true, is_active := true }]
    bookings := [c3booking]
    sessions := [c3sess]
    transactions := []
    payments := []
    next_id := 70 }

/-- Witness for C3: the 60-minute session against the estimated-200 booking
computes total_cost 100 and refunds exactly 100. -/
theorem c3_witness :
    endSessionCost c3state c3sess 3600 = 100 ∧
    ∃ s', end_parking_session c3state 1 9 3600 = .ok s' ∧
      balanceOf s' 1 = some (500 + (200 - endSessionCost c3state c3sess 3600)) ∧
      s'.transactions = c3state.transactions ++
        [{ transaction_id := 70, customer_id := 1, booking_id := some 5, session_id := some 9,
           amount := 200 - endSessionCost c3state c3sess 3600, type := "refund",
           balance_before := 500,
           balance_after := 500 + (200 - endSessionCost c3state c3sess 3600) }] ∧
      (∀ b' ∈ s'.bookings, b'.booking_id = 5 → b'.status = "completed") :=
  ⟨rfl,
   c3_theorem c3state 1 9 3600 c3cust c3sess 5 c3booking 200 rfl rfl rfl (by decide) rfl rfl rfl
     (by decide)⟩

/-- Claim C2: ending an active booked session whose computed cost exceeds
the estimate by more than the caller's balance fails with
InsufficientBalance, and (rollback) the observable state is exactly the
pre-call state: the session stays active with no exit time, the spot stays
occupied, and booking, balance and ledger are untouched. -/
theorem c2_theorem :
    ∀ (s : DBState) (cid sid : Nat) (exit_time : Int) (cust : Customer)
      (sess : ParkingSession) (bid : Nat) (b : Booking) (est : Int),
      findCustomer s cid = some cust →
      findSessionOfCustomer s cid sid = some sess →
      sess.status = "active" →
      sess.entry_time ≤ exit_time →
      sess.booking_id = some bid →
      findBooking s bid = some b →
      b.estimated_cost = some est →
      est < endSessionCost s sess exit_time →
      cust.balance < endSessionCost s sess exit_time - est →
      end_parking_session s cid sid exit_time = .error .insufficientBalance ∧
      end_parking_session_observed s cid sid exit_time = s := by
  intro s cid sid exit_time cust sess bid b est hc hs hstat hexit hbid hfb hest hlt hbal
  have hstat' : ¬(sess.status ≠ "active") := by simp [hstat]
  have hexit' : ¬(exit_time < sess.entry_time) := not_lt.mpr hexit
  have h1 : ¬((0 : Int) < est - endSessionCost s sess exit_time) := by
    intro h
    omega
  have h2 : est - endSessionCost s sess exit_time < 0 := by omega
  have h3 : cust.balance < -(est - endSessionCost s sess exit_time) := by omega
  have hfb2 : findBooking
      (freeSpotRows
        (completeSessionRows s sid exit_time ((exit_time - sess.entry_time).toNat / 60)
          (endSessionCost s sess exit_time))
        sess.spot_id) bid = some b := by
    unfold findBooking
    rw [(freeSpotRows_fields _ _).2.1]
    exact hfb
  have main : end_parking_session s cid sid exit_time = .error .insufficientBalance := by
    simp only [end_parking_session, hc, hs, if_neg hstat', if_neg hexit', hbid, hfb2, hest,
      if_neg h1, if_pos h2, if_pos h3]
  refine ⟨main, ?_⟩
  unfold end_parking_session_observed
  rw [main]

/-- Fixtures for the C2 witness (Scenario D): booking estimated at 200, the
session actually runs 181 minutes at hourly rate 100 (cost 400, penalty
200), and the balance of 100 cannot cover the penalty. -/
def c2cust : Customer := { customer_id := 1, balance := 100 }

def c2sess : ParkingSession :=
  { session_id := 9, booking_id := some 5, vehicle_id := 1, spot_id := 1,
    entry_time := 0, exit_time := none, duration_minutes := none, total_cost := none,
    status := "active" }

def c2booking : Booking :=
  { booking_id := 5, customer_id := 1, vehicle_id := 1, spot_id := 1,
    start_time := 0, end_time := 7200, estimated_cost := some 200, status := "confirmed" }

def c2state : DBState :=
  { customers := [c2cust]
    vehicles := [{ vehicle_id := 1, customer_id := 1 }]
    tariffs := [{ tariff_id := 1, price_per_hour := 100, price_per_day := some 800 }]
    zones := [{ zone_id := 1, tariff_id := some 1, total_spots := 10, available_spots := 9 }]
    spots := [{ spot_id := 1, zone_id := 1, is_occupied := true, is_active := true }]
    bookings := [c2booking]
    sessions := [c2sess]
    transactions := []
    payments := []
    next_id := 70 }

/-- Witness for C2 at Scenario D (181 minutes, penalty 200, balance 100). -/
theorem c2_witness :
    end_parking_session c2state 1 9 10860 = .error .insufficientBalance ∧
    end_parking_session_observed c2state 1 9 10860 = c2state :=
  c2_theorem c2state 1 9 10860 c2cust c2sess 5 c2booking 200 rfl rfl rfl (by decide) rfl rfl rfl
    (by decide) (by decide)

/-! ## Claim C4: the balance-ledger invariant -/

/-- The spec's signed-amount equation: credits (topup, refund) add the
amount, debits (booking_charge, penalty, parking_charge) subtract it. -/
def txnConsistent (t : Transaction) : Prop :=
  (t.type = "topup" ∨ t.type = "refund" →
    t.balance_after = t.balance_before + t.amount) ∧
  (t.type = "booking_charge" ∨ t.type = "penalty" ∨ t.type = "parking_charge" →
    t.balance_after = t.balance_before - t.amount)

/-- What one ledger-writing operation guarantees: the transaction log only
grows, every appended row is signed-consistent and belongs to the caller,
the stored balance equals the `balance_after` of the newly appended row
when one was written, and a nonnegative balance stays nonnegative. -/
def ledgerDelta (s s' : DBState) (cid : Nat) : Prop :=
  ∃ ts, s'.transactions = s.transactions ++ ts ∧
    (∀ t ∈ ts, txnConsistent t ∧ t.customer_id = cid) ∧
    (∀ t, ts = [t] → balanceOf s' cid = some t.balance_after) ∧
    (∀ bal, balanceOf s cid = some bal → 0 ≤ bal →
      ∃ bal', balanceOf s' cid = some bal' ∧ 0 ≤ bal')

theorem balanceOf_congr {t s : DBState} (h : t.customers = s.customers) (cid : Nat) :
    balanceOf t cid = balanceOf s cid := by
  unfold balanceOf findCustomer
  rw [h]

theorem balanceOf_ledgerWrite (s : DBState) (cid : Nat) (cust : Customer) (v : Int)
    (t : Transaction) (h : findCustomer s cid = some cust) :
    balanceOf (ledgerWrite s cid v t) cid = some v := by
  unfold balanceOf findCustomer
  simp only [ledgerWrite, setCustomerBalance]
  rw [find?_balance_map _ _ _ _ h]
  rfl

theorem balanceOf_linkSetLedger (s : DBState) (cid : Nat) (cust : Customer) (v : Int)
    (t : Transaction) (bid sid : Nat) (cost : Int) (h : findCustomer s cid = some cust) :
    balanceOf
      (linkPaymentToSession (setBookingStatus (ledgerWrite s cid v t) bid "completed")
        bid sid cost) cid = some v := by
  unfold balanceOf findCustomer
  rw [(linkPaymentToSession_fields _ _ _ _).1]
  simp only [setBookingStatus, ledgerWrite, setCustomerBalance]
  rw [find?_balance_map _ _ _ _ h]
  rfl

theorem balanceOf_some_of_findCustomer {s : DBState} {cid : Nat} {cust : Customer}
    (h : findCustomer s cid = some cust) : balanceOf s cid = some cust.balance := by
  unfold balanceOf
  rw [h]
  rfl

/-- Claim C4: after every ledger-writing operation (balance top-up; session
end settling by refund, penalty or parking_charge) each Transaction row
written satisfies the signed-amount equation for its type, the customer's
stored balance equals the balance_after of the newly written row, and a
nonnegative balance never becomes negative. -/
theorem c4_theorem :
    (∀ (s : DBState) (cid : Nat) (amount : Int) (s' : DBState),
        topup_balance s cid amount = .ok s' → ledgerDelta s s' cid) ∧
    (∀ (s : DBState) (cid sid : Nat) (exit_time : Int) (s' : DBState),
        end_parking_session s cid sid exit_time = .ok s' → ledgerDelta s s' cid) := by
  constructor
  · intro s cid amount s' h
    unfold topup_balance at h
    split at h
    · exact absurd h (by simp)
    next c hc =>
      split at h
      · exact absurd h (by simp)
      next hamt =>
        simp only [Except.ok.injEq] at h
        subst h
        refine ⟨[_], rfl, ?_, ?_, ?_⟩
        · intro t ht
          simp only [List.mem_singleton] at ht
          subst ht
          exact ⟨⟨fun _ => rfl, fun hx => by simp at hx⟩, rfl⟩
        · intro t ht
          simp only [List.cons.injEq, and_true] at ht
          subst ht
          exact balanceOf_ledgerWrite s cid c _ _ hc
        · intro bal hbal hnn
          refine ⟨c.balance + amount, balanceOf_ledgerWrite s cid c _ _ hc, ?_⟩
          have hb : bal = c.balance := by
            rw [balanceOf_some_of_findCustomer hc] at hbal
            exact (Option.some.injEq _ _ ▸ hbal).symm
          omega
  · intro s cid sid exit_time s' h
    unfold end_parking_session at h
    split at h
    · exact absurd h (by simp)
    next cust hc =>
      split at h
      · exact absurd h (by simp)
      next sess hsess =>
        split at h
        · exact absurd h (by simp)
        · split at h
          · exact absurd h (by simp)
          · split at h
            next bid hbid =>
              simp only [] at h
              split at h
              next hfbnone =>
                simp only [Except.ok.injEq] at h
                subst h
                refine ⟨[], List.append_nil _ ▸ (freeSpotRows_fields _ _).2.2.1, by simp, by simp, ?_⟩
                intro bal hbal hnn
                refine ⟨bal, ?_, hnn⟩
                rw [balanceOf_congr ((freeSpotRows_fields _ _).1) cid]
                exact hbal
              next b hfb =>
                split at h
                · exact absurd h (by simp)
                next est hest =>
                  have hc2 : findCustomer
                      (freeSpotRows
                        (completeSessionRows s sid exit_time
                          ((exit_time - sess.entry_time).toNat / 60)
                          (endSessionCost s sess exit_time))
                        sess.spot_id) cid = some cust := by
                    unfold findCustomer
                    rw [(freeSpotRows_fields _ _).1]
                    exact hc
                  split at h
                  next hdiff =>
                    simp only [Except.ok.injEq] at h
                    subst h
                    refine ⟨[{
                                 transaction_id := s.next_id, customer_id := cid,
                                 booking_id := some bid, session_id := some sid,
                                 amount := est - endSessionCost s sess exit_time,
                                 type := "refund", balance_before := cust.balance,
                                 balance_after :=
                                   cust.balance + (est - endSessionCost s sess exit_time) }],
                      ?_, ?_, ?_, ?_⟩
                    · rw [(linkPaymentToSession_fields _ _ _ _).2.2.1]
                      simp only [setBookingStatus, ledgerWrite, setCustomerBalance]
                      rw [(freeSpotRows_fields _ _).2.2.1,
                        (freeSpotRows_fields _ _).2.2.2.2.1]
                      rfl
                    · intro t ht
                      simp only [List.mem_singleton] at ht
                      subst ht
                      exact ⟨⟨fun _ => rfl, fun hx => by simp at hx⟩, rfl⟩
                    · intro t ht
                      simp only [List.cons.injEq, and_true] at ht
                      subst ht
                      exact balanceOf_linkSetLedger _ _ _ _ _ _ _ _ hc2
                    · intro bal hbal hnn
                      refine ⟨_, balanceOf_linkSetLedger _ _ _ _ _ _ _ _ hc2, ?_⟩
                      have hb : bal = cust.balance := by
                        rw [balanceOf_some_of_findCustomer hc] at hbal
                        exact (Option.some.injEq _ _ ▸ hbal).symm
                      omega
                  next hndiff =>
                    split at h
                    next hdneg =>
                      split at h
                      · exact absurd h (by simp)
                      next hbal =>
                        simp only [Except.ok.injEq] at h
                        subst h
                        refine ⟨[{
                                     transaction_id := s.next_id, customer_id := cid,
                                     booking_id := some bid, session_id := some sid,
                                     amount := -(est - endSessionCost s sess exit_time),
                                     type := "penalty", balance_before := cust.balance,
                                     balance_after :=
                                       cust.balance -
                                         -(est - endSessionCost s sess exit_time) }],
                          ?_, ?_, ?_, ?_⟩
                        · rw [(linkPaymentToSession_fields _ _ _ _).2.2.1]
                          simp only [setBookingStatus, ledgerWrite, setCustomerBalance]
                          rw [(freeSpotRows_fields _ _).2.2.1,
                            (freeSpotRows_fields _ _).2.2.2.2.1]
                          rfl
                        · intro t ht
                          simp only [List.mem_singleton] at ht
                          subst ht
                          exact ⟨⟨fun hx => by simp at hx, fun _ => rfl⟩, rfl⟩
                        · intro t ht
                          simp only [List.cons.injEq, and_true] at ht
                          subst ht
                          exact balanceOf_linkSetLedger _ _ _ _ _ _ _ _ hc2
                        · intro bal hbal hnn
                          refine ⟨_, balanceOf_linkSetLedger _ _ _ _ _ _ _ _ hc2, ?_⟩
                          omega
                    next hdz =>
                      simp only [Except.ok.injEq] at h
                      subst h
                      have hcusts : (linkPaymentToSession
                          (setBookingStatus
                            (freeSpotRows
                              (completeSessionRows s sid exit_time
                                ((exit_time - sess.entry_time).toNat / 60)
                                (endSessionCost s sess exit_time))
                              sess.spot_id) bid "completed")
                          bid sid (endSessionCost s sess exit_time)).customers = s.customers := by
                        rw [(linkPaymentToSession_fields _ _ _ _).1]
                        exact (freeSpotRows_fields _ _).1
                      refine ⟨[], ?_, by simp, by simp, ?_⟩
                      · rw [List.append_nil, (linkPaymentToSession_fields _ _ _ _).2.2.1]
                        exact (freeSpotRows_fields _ _).2.2.1
                      · intro bal hbal hnn
                        refine ⟨bal, ?_, hnn⟩
                        rw [balanceOf_congr hcusts cid]
                        exact hbal
            next hbidnone =>
              simp only [] at h
              split at h
              · exact absurd h (by simp)
              next hbal =>
                have hc2 : findCustomer
                    (freeSpotRows
                      (completeSessionRows s sid exit_time
                        ((exit_time - sess.entry_time).toNat / 60)
                        (endSessionCost s sess exit_time))
                      sess.spot_id) cid = some cust := by
                  unfold findCustomer
                  rw [(freeSpotRows_fields _ _).1]
                  exact hc
                simp only [Except.ok.injEq] at h
                subst h
                refine ⟨[{
                             transaction_id := s.next_id, customer_id := cid,
                             booking_id := none, session_id := some sid,
                             amount := endSessionCost s sess exit_time,
                             type := "parking_charge", balance_before := cust.balance,
                             balance_after :=
                               cust.balance - endSessionCost s sess exit_time }],
                  ?_, ?_, ?_, ?_⟩
                · simp only [ledgerWrite, setCustomerBalance]
                  rw [(freeSpotRows_fields _ _).2.2.1,
                    (freeSpotRows_fields _ _).2.2.2.2.1]
                  rfl
                · intro t ht
                  simp only [List.mem_singleton] at ht
                  subst ht
                  exact ⟨⟨fun hx => by simp at hx, fun _ => rfl⟩, rfl⟩
                · intro t ht
                  simp only [List.cons.injEq, and_true] at ht
                  subst ht
                  unfold balanceOf findCustomer
                  simp only [ledgerWrite, setCustomerBalance]
                  rw [find?_balance_map _ _ _ _ hc2]
                  rfl
                · intro bal hbal hnn
                  refine ⟨cust.balance - endSessionCost s sess exit_time, ?_, ?_⟩
                  · unfold balanceOf findCustomer
                    simp only [ledgerWrite, setCustomerBalance]
                    rw [find?_balance_map _ _ _ _ hc2]
                    rfl
                  · omega

/-- Fixture for the C4 witness: balance 300, an active bookingless session
on a spot with hourly rate 100. -/
def c4state : DBState :=
  { customers := [{ customer_id := 1, balance := 300 }]
    vehicles := [{ vehicle_id := 1, customer_id := 1 }]
    tariffs := [{ tariff_id := 1, price_per_hour := 100, price_per_day := some 800 }]
    zones := [{ zone_id := 1, tariff_id := some 1, total_spots := 10, available_spots := 9 }]
    spots := [{ spot_id := 1, zone_id := 1, is_occupied := true, is_active := true }]
    bookings := []
    sessions := [{ session_id := 9, booking_id := none, vehicle_id := 1, spot_id := 1,
                   entry_time := 0, exit_time := none, duration_minutes := none,
                   total_cost := none, status := "active" }]
    transactions := []
    payments := []
    next_id := 80 }

/-- Witness for C4: a concrete top-up of 50 and a concrete bookingless
session end (parking_charge of 100) both satisfy the ledger contract. -/
theorem c4_witness :
    (∃ s', topup_balance c4state 1 50 = .ok s' ∧ ledgerDelta c4state s' 1) ∧
    (∃ s', end_parking_session c4state 1 9 3600 = .ok s' ∧ ledgerDelta c4state s' 1) :=
  ⟨⟨_, rfl, c4_theorem.1 c4state 1 50 _ rfl⟩,
   ⟨_, rfl, c4_theorem.2 c4state 1 9 3600 _ rfl⟩⟩

/-! ## Claim C8: spot occupancy invariant -/

/-- Initial states of the claim: all spots unoccupied, no sessions. -/
def InitState (s : DBState) : Prop :=
  (∀ p ∈ s.spots, p.is_occupied = false) ∧ s.sessions = []

/-- States reachable from an initial state by start/end session requests. -/
inductive Reachable : DBState → Prop where
  | init : ∀ {s}, InitState s → Reachable s
  | step_start : ∀ {s s'} (cid vid spid : Nat) (bid? : Option Nat) (entry? : Option Int)
      (now : Int), Reachable s →
      start_parking_session s cid vid spid bid? entry? now = .ok s' → Reachable s'
  | step_end : ∀ {s s'} (cid sid : Nat) (exit_time : Int), Reachable s →
      end_parking_session s cid sid exit_time = .ok s' → Reachable s'

/-- A spot is occupied iff an active session exists on it. -/
def occIff (s : DBState) : Prop :=
  ∀ p ∈ s.spots,
    (p.is_occupied = true ↔ ∃ t ∈ s.sessions, t.spot_id = p.spot_id ∧ t.status = "active")

/-- At most one active session per spot. -/
def atMostOne (s : DBState) : Prop :=
  ∀ t1 ∈ s.sessions, ∀ t2 ∈ s.sessions,
    t1.status = "active" → t2.status = "active" → t1.spot_id = t2.spot_id → t1 = t2

/-- Bookkeeping invariant: session primary keys are unique and below the
id counter. -/
def sessIdsOk (s : DBState) : Prop :=
  (∀ t ∈ s.sessions, t.session_id < s.next_id) ∧
  (s.sessions.map (·.session_id)).Nodup

def SpotInv (s : DBState) : Prop := occIff s ∧ atMostOne s ∧ sessIdsOk s

theorem SpotInv_init {s : DBState} (h : InitState s) : SpotInv s := by
  obtain ⟨hocc, hsess⟩ := h
  refine ⟨?_, ?_, ?_, ?_⟩
  · intro p hp
    rw [hsess]
    simp [hocc p hp]
  · intro t1 ht1
    rw [hsess] at ht1
    simp at ht1
  · intro t ht
    rw [hsess] at ht
    simp at ht
  · rw [hsess]
    simp

/-- Characterisation of a successful session start: the spot was found and
free, every spot row with that id is flagged occupied, and exactly one new
active session row (with a fresh primary key) is appended. -/
theorem start_parking_session_ok_shape {s : DBState} {cid vid spid : Nat} {bid? : Option Nat}
    {entry? : Option Int} {now : Int} {s' : DBState}
    (h : start_parking_session s cid vid spid bid? entry? now = .ok s') :
    ∃ spot, findSpot s spid = some spot ∧ spot.is_occupied = false ∧
      s'.spots = s.spots.map
        (fun p => if p.spot_id == spid then { p with is_occupied := true } else p) ∧
      s'.sessions = s.sessions ++
        [{ session_id := s.next_id, booking_id := bid?, vehicle_id := vid, spot_id := spid,
           entry_time := entry?.getD now, exit_time := none, duration_minutes := none,
           total_cost := none, status := "active" }] ∧
      s'.next_id = s.next_id + 1 := by
  unfold start_parking_session at h
  split at h
  · exact absurd h (by simp)
  · split at h
    · exact absurd h (by simp)
    next spot hspot =>
      split at h
      next hocc => exact absurd h (by simp)
      next hocc =>
        simp only [] at h
        split at h
        · exact absurd h (by simp)
        next s1 hs1 =>
          have hfree : spot.is_occupied = false := by
            cases hb : spot.is_occupied
            · rfl
            · exact absurd hb hocc
          have hs1fields : s1.spots = s.spots ∧ s1.sessions = s.sessions ∧
              s1.next_id = s.next_id := by
            split at hs1
            · simp only [Except.ok.injEq] at hs1
              subst hs1
              exact ⟨rfl, rfl, rfl⟩
            · split at hs1
              · exact absurd hs1 (by simp)
              · split at hs1
                · exact absurd hs1 (by simp)
                · split at hs1
                  · exact absurd hs1 (by simp)
                  · split at hs1
                    · exact absurd hs1 (by simp)
                    · split at hs1
                      · exact absurd hs1 (by simp)
                      · split at hs1
                        · simp only [Except.ok.injEq] at hs1
                          subst hs1
                          exact ⟨rfl, rfl, rfl⟩
                        · simp only [Except.ok.injEq] at hs1
                          subst hs1
                          exact ⟨rfl, rfl, rfl⟩
          simp only [Except.ok.injEq] at h
          subst h
          refine ⟨spot, hspot, hfree, ?_, ?_, ?_⟩
          · show (setSpotOccupied s1 spid true).spots = _
            unfold setSpotOccupied
            rw [hs1fields.1]
          · show s1.sessions ++ _ = _
            rw [hs1fields.2.1, hs1fields.2.2]
          · show s1.next_id + 1 = _
            rw [hs1fields.2.2]

/-- Characterisation of a successful session end: the session was found and
active, every session row with that id is completed (ids and spot links are
preserved), and either every spot row with the session's spot id is freed,
or no such spot row exists and the spots table is unchanged. -/
theorem end_parking_session_ok_shape {s : DBState} {cid sid : Nat} {exit_time : Int}
    {s' : DBState} (h : end_parking_session s cid sid exit_time = .ok s') :
    ∃ sess, findSessionOfCustomer s cid sid = some sess ∧ sess.status = "active" ∧
      sess.session_id = sid ∧
      s'.sessions = s.sessions.map (fun t =>
        if t.session_id == sid then
          { t with
            exit_time := some exit_time,
            status := "completed",
            duration_minutes := some ((exit_time - sess.entry_time).toNat / 60),
            total_cost := some (endSessionCost s sess exit_time) }
        else t) ∧
      (s'.spots = s.spots.map (fun p =>
          if p.spot_id == sess.spot_id then { p with is_occupied := false } else p)
        ∨ (findSpot s sess.spot_id = none ∧ s'.spots = s.spots)) ∧
      s.next_id ≤ s'.next_id := by
  unfold end_parking_session at h
  split at h
  · exact absurd h (by simp)
  next cust hc =>
    split at h
    · exact absurd h (by simp)
    next sess hsess =>
      split at h
      next hstat => exact absurd h (by simp)
      next hstat =>
        split at h
        · exact absurd h (by simp)
        next hexit =>
          have hactive : sess.status = "active" := not_ne_iff.mp hstat
          have hsid : sess.session_id = sid := by
            have hpred := List.find?_some hsess
            simp only [Bool.and_eq_true, beq_iff_eq] at hpred
            exact hpred.1
          have spotsDisj : ∀ (dm : Nat) (cost : Int),
              ((freeSpotRows (completeSessionRows s sid exit_time dm cost)
                  sess.spot_id).spots =
                s.spots.map (fun p =>
                  if p.spot_id == sess.spot_id then { p with is_occupied := false } else p))
              ∨ (findSpot s sess.spot_id = none ∧
                (freeSpotRows (completeSessionRows s sid exit_time dm cost)
                  sess.spot_id).spots = s.spots) := by
            intro dm cost
            unfold freeSpotRows
            cases hfs : findSpot (completeSessionRows s sid exit_time dm cost) sess.spot_id with
            | none => exact Or.inr ⟨hfs, rfl⟩
            | some spot => exact Or.inl rfl
          split at h
          next bid hbid =>
            simp only [] at h
            split at h
            next hfbnone =>
              simp only [Except.ok.injEq] at h
              subst h
              refine ⟨sess, hsess, hactive, hsid,
                (freeSpotRows_fields _ _).2.2.2.2.2.1, spotsDisj _ _, ?_⟩
              rw [(freeSpotRows_fields _ _).2.2.2.2.1]
              exact Nat.le_refl _
            next b hfb =>
              split at h
              · exact absurd h (by simp)
              next est hest =>
                split at h
                next hdiff =>
                  simp only [Except.ok.injEq] at h
                  subst h
                  refine ⟨sess, hsess, hactive, hsid, ?_, ?_, ?_⟩
                  · rw [(linkPaymentToSession_fields _ _ _ _).2.2.2.1]
                    exact (freeSpotRows_fields _ _).2.2.2.2.2.1
                  · rw [(linkPaymentToSession_fields _ _ _ _).2.2.2.2.2]
                    exact spotsDisj _ _
                  · rw [(linkPaymentToSession_fields _ _ _ _).2.2.2.2.1]
                    show s.next_id ≤ (freeSpotRows _ _).next_id + 1
                    rw [(freeSpotRows_fields _ _).2.2.2.2.1]
                    exact Nat.le_succ _
                next hndiff =>
                  split at h
                  next hdneg =>
                    split at h
                    · exact absurd h (by simp)
                    next hbal =>
                      simp only [Except.ok.injEq] at h
                      subst h
                      refine ⟨sess, hsess, hactive, hsid, ?_, ?_, ?_⟩
                      · rw [(linkPaymentToSession_fields _ _ _ _).2.2.2.1]
                        exact (freeSpotRows_fields _ _).2.2.2.2.2.1
                      · rw [(linkPaymentToSession_fields _ _ _ _).2.2.2.2.2]
                        exact spotsDisj _ _
                      · rw [(linkPaymentToSession_fields _ _ _ _).2.2.2.2.1]
                        show s.next_id ≤ (freeSpotRows _ _).next_id + 1
                        rw [(freeSpotRows_fields _ _).2.2.2.2.1]
                        exact Nat.le_succ _
                  next hdz =>
                    simp only [Except.ok.injEq] at h
                    subst h
                    refine ⟨sess, hsess, hactive, hsid, ?_, ?_, ?_⟩
                    · rw [(linkPaymentToSession_fields _ _ _ _).2.2.2.1]
                      exact (freeSpotRows_fields _ _).2.2.2.2.2.1
                    · rw [(linkPaymentToSession_fields _ _ _ _).2.2.2.2.2]
                      exact spotsDisj _ _
                    · rw [(linkPaymentToSession_fields _ _ _ _).2.2.2.2.1]
                      show s.next_id ≤ (freeSpotRows _ _).next_id
                      rw [(freeSpotRows_fields _ _).2.2.2.2.1]
                      exact Nat.le_refl _
          next hbidnone =>
            simp only [] at h
            split at h
            · exact absurd h (by simp)
            next hbal =>
              simp only [Except.ok.injEq] at h
              subst h
              refine ⟨sess, hsess, hactive, hsid, ?_, ?_, ?_⟩
              · exact (freeSpotRows_fields _ _).2.2.2.2.2.1
              · exact spotsDisj _ _
              · show s.next_id ≤ (freeSpotRows _ _).next_id + 2
                rw [(freeSpotRows_fields _ _).2.2.2.2.1]
                exact Nat.le_add_right _ 2

theorem SpotInv_preserved_start {s s' : DBState} {cid vid spid : Nat} {bid? : Option Nat}
    {entry? : Option Int} {now : Int} (inv : SpotInv s)
    (h : start_parking_session s cid vid spid bid? entry? now = .ok s') : SpotInv s' := by
  obtain ⟨hocc, hone, hids⟩ := inv
  obtain ⟨spot, hspot, hfree, hspots, hsess, hnid⟩ := start_parking_session_ok_shape h
  have hspotmem : spot ∈ s.spots := List.mem_of_find?_eq_some hspot
  have hspotid : spot.spot_id = spid := by
    have hpred := List.find?_some hspot
    simpa using hpred
  have hnoactive : ∀ t ∈ s.sessions, t.spot_id = spid → t.status ≠ "active" := by
    intro t ht htspot hstat
    have htrue : spot.is_occupied = true :=
      (hocc spot hspotmem).mpr ⟨t, ht, by rw [htspot, hspotid], hstat⟩
    rw [hfree] at htrue
    exact absurd htrue (by simp)
  refine ⟨?_, ?_, ?_, ?_⟩
  · intro p hp
    rw [hspots] at hp
    rw [hsess]
    simp only [List.mem_map] at hp
    obtain ⟨p0, hp0, hpeq⟩ := hp
    by_cases hps : (p0.spot_id == spid) = true
    · rw [if_pos hps] at hpeq
      subst hpeq
      constructor
      · intro _
        exact ⟨_, List.mem_append_right _ (List.mem_singleton_self _),
          (by simpa using hps : p0.spot_id = spid).symm, rfl⟩
      · intro _
        rfl
    · rw [if_neg hps] at hpeq
      subst hpeq
      have hne : p0.spot_id ≠ spid := by simpa using hps
      rw [hocc p0 hp0]
      constructor
      · rintro ⟨t, ht, hts, hta⟩
        exact ⟨t, List.mem_append_left _ ht, hts, hta⟩
      · rintro ⟨t, ht, hts, hta⟩
        rcases List.mem_append.mp ht with h1 | h1
        · exact ⟨t, h1, hts, hta⟩
        · simp only [List.mem_singleton] at h1
          subst h1
          exact absurd hts.symm hne
  · intro t1 ht1 t2 ht2 ha1 ha2 hsp
    rw [hsess] at ht1 ht2
    rcases List.mem_append.mp ht1 with h1 | h1 <;> rcases List.mem_append.mp ht2 with h2 | h2
    · exact hone t1 h1 t2 h2 ha1 ha2 hsp
    · simp only [List.mem_singleton] at h2
      subst h2
      exact absurd ha1 (hnoactive t1 h1 hsp)
    · simp only [List.mem_singleton] at h1
      subst h1
      exact absurd ha2 (hnoactive t2 h2 hsp.symm)
    · simp only [List.mem_singleton] at h1 h2
      rw [h1, h2]
  · intro t ht
    rw [hsess] at ht
    rw [hnid]
    rcases List.mem_append.mp ht with h1 | h1
    · exact Nat.lt_succ_of_lt (hids.1 t h1)
    · simp only [List.mem_singleton] at h1
      subst h1
      exact Nat.lt_succ_self _
  · rw [hsess, List.map_append]
    refine List.Nodup.append hids.2 (List.nodup_singleton _) ?_
    intro a ha hb
    simp only [List.map_cons, List.map_nil, List.mem_singleton] at hb
    subst hb
    simp only [List.mem_map] at ha
    obtain ⟨t, ht, hta⟩ := ha
    have hlt := hids.1 t ht
    omega

theorem SpotInv_preserved_end {s s' : DBState} {cid sid : Nat} {exit_time : Int}
    (inv : SpotInv s) (h : end_parking_session s cid sid exit_time = .ok s') : SpotInv s' := by
  obtain ⟨hocc, hone, hids⟩ := inv
  obtain ⟨sess, hsess, hactive, hsid, hsessions, hspotsD, hnid⟩ :=
    end_parking_session_ok_shape h
  have hsessmem : sess ∈ s.sessions := List.mem_of_find?_eq_some hsess
  have huniq : ∀ t ∈ s.sessions, t.session_id = sid → t = sess := by
    intro t ht hts
    exact List.inj_on_of_nodup_map hids.2 ht hsessmem (by rw [hts, hsid])
  have hact' : ∀ q ∈ s'.sessions, q.status = "active" → q ∈ s.sessions ∧ q.session_id ≠ sid := by
    intro q hq hqa
    rw [hsessions] at hq
    simp only [List.mem_map] at hq
    obtain ⟨t, ht, hteq⟩ := hq
    by_cases hts : (t.session_id == sid) = true
    · rw [if_pos hts] at hteq
      rw [← hteq] at hqa
      simp at hqa
    · rw [if_neg hts] at hteq
      subst hteq
      exact ⟨ht, by simpa using hts⟩
  have hact2 : ∀ t ∈ s.sessions, t.status = "active" → t.session_id ≠ sid →
      t ∈ s'.sessions := by
    intro t ht _ htid
    rw [hsessions]
    refine List.mem_map.mpr ⟨t, ht, ?_⟩
    rw [if_neg (by simpa using htid)]
  have hiff : ∀ x : Nat, x ≠ sess.spot_id →
      ((∃ t ∈ s.sessions, t.spot_id = x ∧ t.status = "active") ↔
       (∃ t ∈ s'.sessions, t.spot_id = x ∧ t.status = "active")) := by
    intro x hx
    constructor
    · rintro ⟨t, ht, hts, hta⟩
      have htid : t.session_id ≠ sid := by
        intro he
        have heq := huniq t ht he
        rw [heq] at hts
        exact hx hts.symm
      exact ⟨t, hact2 t ht hta htid, hts, hta⟩
    · rintro ⟨q, hq, hqs, hqa⟩
      exact ⟨q, (hact' q hq hqa).1, hqs, hqa⟩
  have hnoactive' : ¬∃ t ∈ s'.sessions, t.spot_id = sess.spot_id ∧ t.status = "active" := by
    rintro ⟨q, hq, hqs, hqa⟩
    obtain ⟨hqm, hqid⟩ := hact' q hq hqa
    have heq := hone q hqm sess hsessmem hqa hactive hqs
    rw [heq] at hqid
    exact hqid hsid
  refine ⟨?_, ?_, ?_, ?_⟩
  · intro p hp
    rcases hspotsD with hmap | ⟨hnone, hsame⟩
    · rw [hmap] at hp
      simp only [List.mem_map] at hp
      obtain ⟨p0, hp0, hpeq⟩ := hp
      by_cases hps : (p0.spot_id == sess.spot_id) = true
      · rw [if_pos hps] at hpeq
        subst hpeq
        simp only [show ({ p0 with is_occupied := false } : ParkingSpot).is_occupied = false
          from rfl]
        constructor
        · intro hfalse
          exact absurd hfalse (by simp)
        · intro hex
          exfalso
          apply hnoactive'
          obtain ⟨t, ht, hts, hta⟩ := hex
          exact ⟨t, ht, by rw [hts]; simpa using hps, hta⟩
      · rw [if_neg hps] at hpeq
        subst hpeq
        rw [hocc p0 hp0]
        exact hiff p0.spot_id (by simpa using hps)
    · rw [hsame] at hp
      have hne : p.spot_id ≠ sess.spot_id := by
        intro he
        have hall := List.find?_eq_none.mp hnone p hp
        simp only [beq_iff_eq] at hall
        exact hall he
      rw [hocc p hp]
      exact hiff p.spot_id hne
  · intro t1 ht1 t2 ht2 ha1 ha2 hsp
    obtain ⟨h1, _⟩ := hact' t1 ht1 ha1
    obtain ⟨h2, _⟩ := hact' t2 ht2 ha2
    exact hone t1 h1 t2 h2 ha1 ha2 hsp
  · intro t ht
    rw [hsessions] at ht
    simp only [List.mem_map] at ht
    obtain ⟨t0, ht0, hteq⟩ := ht
    have hid0 : t.session_id = t0.session_id := by
      by_cases hts : (t0.session_id == sid) = true
      · rw [if_pos hts] at hteq
        rw [← hteq]
      · rw [if_neg hts] at hteq
        rw [← hteq]
    rw [hid0]
    exact Nat.lt_of_lt_of_le (hids.1 t0 ht0) hnid
  · have hidmap : s'.sessions.map (fun t => t.session_id) =
        s.sessions.map (fun t => t.session_id) := by
      rw [hsessions, List.map_map]
      apply List.map_congr_left
      intro t _
      simp only [Function.comp]
      by_cases hts : (t.session_id == sid) = true
      · rw [if_pos hts]
      · rw [if_neg hts]
    rw [show (s'.sessions.map (·.session_id)) = s'.sessions.map (fun t => t.session_id)
      from rfl, hidmap]
    exact hids.2

/-- Claim C8: in every state reachable from an initial state (spots
unoccupied, no sessions) by start/end session requests, a spot is occupied
iff an active session exists on it, and at most one active session exists
per spot. -/
theorem c8_theorem : ∀ s : DBState, Reachable s → occIff s ∧ atMostOne s := by
  have key : ∀ s : DBState, Reachable s → SpotInv s := by
    intro s h
    induction h with
    | init h0 => exact SpotInv_init h0
    | step_start cid vid spid bid? entry? now hr hstep ih =>
      exact SpotInv_preserved_start ih hstep
    | step_end cid sid exit_time hr hstep ih =>
      exact SpotInv_preserved_end ih hstep
  intro s h
  exact ⟨(key s h).1, (key s h).2.1⟩

/-- Initial fixture for the C8 witness: one free spot, no sessions. -/
def c8init : DBState :=
  { customers := [{ customer_id := 1, balance := 0 }]
    vehicles := [{ vehicle_id := 1, customer_id := 1 }]
    tariffs := []
    zones := [{ zone_id := 1, tariff_id := none, total_spots := 1, available_spots := 1 }]
    spots := [{ spot_id := 1, zone_id := 1, is_occupied := false, is_active := true }]
    bookings := []
    sessions := []
    transactions := []
    payments := []
    next_id := 10 }

/-- The state after one successful session start on the fixture. -/
def c8after : DBState :=
  { customers := [{ customer_id := 1, balance := 0 }]
    vehicles := [{ vehicle_id := 1, customer_id := 1 }]
    tariffs := []
    zones := [{ zone_id := 1, tariff_id := none, total_spots := 1, available_spots := 0 }]
    spots := [{ spot_id := 1, zone_id := 1, is_occupied := true, is_active := true }]
    bookings := []
    sessions := [{ session_id := 10, booking_id := none, vehicle_id := 1, spot_id := 1,
                   entry_time := 0, exit_time := none, duration_minutes := none,
                   total_cost := none, status := "active" }]
    transactions := []
    payments := []
    next_id := 11 }

/-- Witness for C8 at a concrete reachable state (after one session start). -/
theorem c8_witness : occIff c8after ∧ atMostOne c8after :=
  c8_theorem c8after
    (@Reachable.step_start c8init c8after 1 1 1 none none 0
      (@Reachable.init c8init ⟨by decide, rfl⟩) rfl)
